import Mathlib

/-!
Verification development for the SKA LMC base classes (`lmc-base-classes`).

This file gives a shallow embedding of the state-model core of the
repository — the `DeviceStateModel` transition-table engine and its
`SKASubarrayStateModel` specialisation, the command envelope
(`BaseCommand` / `ActionCommand` / `DualActionCommand`), the subarray
resource bookkeeping, and the two `transitions`-library state machines of
`state_machine.py` — and proves properties of the embedded code.

Conventions of the embedding:
* Python strings stay strings; enumerations become Lean inductives.
* Raised exceptions become `Except`/`Option` error values; the distinct
  exception classes of `faults.py` (plus `AttributeError` and a generic
  exception escaping a `do()` hook) become constructors of `PyErr`.
* Mutation becomes explicit state passing.  A state model is a pair of a
  current state string and an auxiliary record `aux` holding the
  device-side attributes that transition side effects touch; callback
  invocations are recorded in an event list inside `aux`.
-/

namespace SkaBase

/-- Embedding of `control_model.ReturnCode` (also `commands.ReturnCode`). -/
inductive ReturnCode where
  | OK
  | STARTED
  | QUEUED
  | FAILED
  | UNKNOWN
deriving DecidableEq, Repr

/-- Embedding of `control_model.ObsState`. -/
inductive ObsState where
  | EMPTY
  | RESOURCING
  | IDLE
  | CONFIGURING
  | READY
  | SCANNING
  | ABORTING
  | ABORTED
  | RESETTING
  | FAULT
  | RESTARTING
deriving DecidableEq, Repr

/-- Embedding of `control_model.AdminMode`. -/
inductive AdminMode where
  | ONLINE
  | OFFLINE
  | MAINTENANCE
  | NOT_FITTED
  | RESERVED
deriving DecidableEq, Repr

/-- The values of `tango.DevState` used by this repository
(`UNKNOWN`, `INIT`, `FAULT`, `DISABLE`, `STANDBY`, `OFF`, `ON`). -/
inductive DevS where
  | UNKNOWN
  | INIT
  | FAULT
  | DISABLE
  | STANDBY
  | OFF
  | ON
deriving DecidableEq, Repr

/-- The exceptions that the embedded code can raise.
`stateModelError` is `faults.StateModelError`, `returnCodeError` is
`faults.ReturnCodeError`, `attributeError` is Python's `AttributeError`
(raised on access to an attribute that was never assigned), and
`doException` stands for an arbitrary exception escaping a `do()` hook. -/
inductive PyErr where
  | stateModelError
  | returnCodeError
  | attributeError
  | doException
deriving DecidableEq, Repr

/-- A state model value: the current state string (`DeviceStateModel._state`)
together with the device-side attributes `aux` that side effects mutate. -/
structure DSM (α : Type) where
  state : String
  aux : α
deriving DecidableEq, Repr

/-- A transition table (`DeviceStateModel._transitions`): a finite map from
`(state, action)` keys to `(next-state, optional side effect)` values.  Side
effects in the repository only touch device-side attributes (they call
`_set_state` / `_set_obs_state` / `_set_admin_mode`), so they are embedded as
functions on `aux`. -/
abbrev TTable (α : Type) := List ((String × String) × (String × Option (α → α)))

/-- Run an optional side effect, as `perform_action` does after the state
assignment (`if side_effect is not None: side_effect(self)`). -/
def applyEff {α : Type} (eff : Option (α → α)) (a : α) : α :=
  match eff with
  | none => a
  | some f => f a

/-- Embedding of `DeviceStateModel.is_action_allowed`: whether the
`(state, action)` key is present in the transition table. -/
def is_action_allowed {α : Type} (t : TTable α) (m : DSM α) (a : String) : Bool :=
  (t.lookup (m.state, a)).isSome

/-- Embedding of `DeviceStateModel.try_action`: returns `True` if the action
is allowed, raises `StateModelError` otherwise. -/
def try_action {α : Type} (t : TTable α) (m : DSM α) (a : String) : Except PyErr Bool :=
  if is_action_allowed t m a then .ok true else .error .stateModelError

/-- Embedding of `DeviceStateModel.perform_action`: look the key up and, when
present, move to the declared next state and run the side effect; when absent
raise `StateModelError` (the raise happens inside `try_action`, before any
assignment to `self._state`, so an error leaves the model untouched). -/
def perform_action {α : Type} (t : TTable α) (m : DSM α) (a : String) :
    Except PyErr (DSM α) :=
  match t.lookup (m.state, a) with
  | none => .error .stateModelError
  | some (s2, eff) => .ok { state := s2, aux := applyEff eff m.aux }

/-- The observable effect of `perform_action` on the caller's model: on
success the new model, on a raise the unchanged model together with the
exception. -/
def stepPerform {α : Type} (t : TTable α) (m : DSM α) (a : String) :
    DSM α × Option PyErr :=
  match perform_action t m a with
  | .ok m2 => (m2, none)
  | .error e => (m, some e)

/-- Result of a `do()` hook on a target with attributes `α`: either a
`(ReturnCode, message)` pair or a raised exception, together with the
(possibly mutated) target attributes. -/
abbrev DoFn (α : Type) := α → (Except PyErr (ReturnCode × String)) × α

/-- Embedding of the `except Exception:` clause shared by
`ActionCommand.__call__` and `DualActionCommand.__call__` (`commands.py`):
perform the `"fatal_error"` action, then re-raise the original exception.
If `perform_action` itself raises (`fatal_error` not allowed in the current
state), that `StateModelError` propagates instead and the model is left
unchanged. -/
def fatalThenRaise {α : Type} (t : TTable α) (m : DSM α) (e : PyErr) :
    DSM α × Except PyErr (ReturnCode × String) :=
  match perform_action t m "fatal_error" with
  | .ok m2 => (m2, .error e)
  | .error e2 => (m, .error e2)

/-- Embedding of `check_allowed` (`commands.py`): with no hook the command is
always allowed, otherwise `try_action` on the hook. -/
def check_allowed {α : Type} (t : TTable α) (m : DSM α) (hook : Option String) :
    Except PyErr Bool :=
  match hook with
  | none => .ok true
  | some h => try_action t m h

/-- Embedding of the default `succeeded()` / `failed()` / `started()`
methods of `commands.py`: perform the hook action when a hook is present,
do nothing otherwise. -/
def performHook {α : Type} (t : TTable α) (hook : Option String) (m : DSM α) :
    Except PyErr (DSM α) :=
  match hook with
  | none => .ok m
  | some h => perform_action t m h

/-- Embedding of `ActionCommand._returned`: `OK` drives `succeeded`,
`FAILED` drives `failed`, any other code raises `ReturnCodeError`. -/
def returnedAction {α : Type} (succ fail : DSM α → Except PyErr (DSM α))
    (rc : ReturnCode) (m : DSM α) : Except PyErr (DSM α) :=
  match rc with
  | .OK => succ m
  | .FAILED => fail m
  | _ => .error .returnCodeError

/-- Embedding of `DualActionCommand._returned`: `OK` drives `succeeded`,
`FAILED` drives `failed`, any other code does nothing (completion is then the
responsibility of a later callback). -/
def returnedDual {α : Type} (succ fail : DSM α → Except PyErr (DSM α))
    (rc : ReturnCode) (m : DSM α) : Except PyErr (DSM α) :=
  match rc with
  | .OK => succ m
  | .FAILED => fail m
  | _ => .ok m

/-- Embedding of `ActionCommand.__call__` and `DualActionCommand.__call__`
(`commands.py`), parameterised by the hook checked in `check_allowed`, the
optional started hook (present exactly for `DualActionCommand`), the
`succeeded` / `failed` methods (overridable, cf. `_ResourcingCommand`), and
the `do` hook.  Returns the final model together with the returned value or
the propagated exception.  The `try` block spans `started()`, `_call_do` and
`_returned`, so an exception from any of them drives `fatal_error` and is
re-raised. -/
def commandCall {α : Type} (t : TTable α) (dual : Bool)
    (checkHook startedHook : Option String)
    (succ fail : DSM α → Except PyErr (DSM α))
    (doFn : DoFn α) (m : DSM α) :
    DSM α × Except PyErr (ReturnCode × String) :=
  match check_allowed t m checkHook with
  | .error e => (m, .error e)
  | .ok _ =>
    match performHook t startedHook m with
    | .error e => fatalThenRaise t m e
    | .ok m1 =>
      let r := doFn m1.aux
      let m2 : DSM α := { m1 with aux := r.2 }
      match r.1 with
      | .error e => fatalThenRaise t m2 e
      | .ok (rc, msg) =>
        match (if dual then returnedDual succ fail rc m2
               else returnedAction succ fail rc m2) with
        | .ok m3 => (m3, .ok (rc, msg))
        | .error e => fatalThenRaise t m2 e

/-- Embedding of `BaseCommand.__call__` (`commands.py`): call `do()` and wrap
the `(return_code, message)` pair component-wise into one-element tuples,
`((return_code,), (message,))`.  Python one-element tuples are modelled as
singleton lists. -/
def baseCommandCall (doResult : ReturnCode × String) :
    List ReturnCode × List String :=
  ([doResult.1], [doResult.2])

/-- Embedding of `SKASubarray._assign_resources`: append each requested
resource not already held (`if resource not in self._assigned_resources`). -/
def assign_resources (held resources : List String) : List String :=
  resources.foldl (fun acc r => if r ∈ acc then acc else acc ++ [r]) held

/-- Embedding of `SKASubarray._release_resources`: remove each requested
resource that is held (`if resource in self._assigned_resources:
self._assigned_resources.remove(resource)`; `list.remove` deletes the first
occurrence). -/
def release_resources (held resources : List String) : List String :=
  resources.foldl (fun acc r => if r ∈ acc then acc.erase r else acc) held

/-- Embedding of `SKASubarray._release_all_resources`:
`self._assigned_resources.clear()`. -/
def release_all_resources (_held : List String) : List String :=
  []

/-- A recorded invocation of one of the state-change callback hooks handed to
the state model (`state_callback`, `obs_state_callback`,
`admin_mode_callback`), with the value it was invoked with. -/
inductive CbEvent where
  | op (v : DevS)
  | obs (v : ObsState)
  | admin (v : AdminMode)
deriving DecidableEq, Repr

/-- The device-side attributes touched by `SKASubarrayStateModel` transition
side effects: the subarray's assigned-resource list
(`SKASubarray._assigned_resources`), the model's operational state
(`SKABaseDeviceStateModel._state`, initially `DevState.UNKNOWN`), the admin
mode, and the log of callback invocations. -/
structure SubAux where
  resources : List String
  opState : DevS
  adminMode : Option AdminMode
  events : List CbEvent
deriving DecidableEq, Repr

/-- Embedding of `SKABaseDeviceStateModel._set_state` (`base_device.py`):
update `_state` and invoke the state callback only when the value changes. -/
def set_state (v : DevS) (a : SubAux) : SubAux :=
  if a.opState = v then a
  else { a with opState := v, events := a.events ++ [.op v] }

/-- Embedding of `SKAObsDeviceStateModel._set_obs_state` (`obs_device.py`):
invoke the obs-state callback unconditionally — this helper has no
changed-value guard. -/
def set_obs_state (v : ObsState) (a : SubAux) : SubAux :=
  { a with events := a.events ++ [.obs v] }

/-- Modelled from the spec: `_set_admin_mode` is called by the
`SKAObsDeviceStateModel` init transition but no definition of it appears
under `src/` (`base_device.py` holds an older guard-based revision of the
base state model).  Per the spec the admin-mode callback is invoked
synchronously whenever the value changes, so the helper sets the mode and
invokes the callback only on a change. -/
def set_admin_mode (v : AdminMode) (a : SubAux) : SubAux :=
  if a.adminMode = some v then a
  else { a with adminMode := some v, events := a.events ++ [.admin v] }

/-- Embedding of `SKASubarrayStateModel._subarray_transitions`
(`subarray_device.py`), entry for entry and in source order. -/
def subarrayTransitions : TTable SubAux := [
  (("OFF", "on_succeeded"), ("EMPTY", some (set_state .ON))),
  (("OFF", "on_failed"), ("FAULT", some (set_state .FAULT))),
  (("EMPTY", "off_succeeded"), ("OFF", some (set_state .OFF))),
  (("EMPTY", "off_failed"), ("FAULT", some (set_state .FAULT))),
  (("EMPTY", "assign_started"), ("RESOURCING", some (set_obs_state .RESOURCING))),
  (("EMPTY", "fatal_error"), ("OBSFAULT", some (set_obs_state .FAULT))),
  (("RESOURCING", "resourcing_succeeded_some_resources"), ("IDLE", some (set_obs_state .IDLE))),
  (("RESOURCING", "resourcing_succeeded_no_resources"), ("EMPTY", some (set_obs_state .EMPTY))),
  (("RESOURCING", "resourcing_failed"), ("OBSFAULT", some (set_obs_state .FAULT))),
  (("RESOURCING", "fatal_error"), ("OBSFAULT", some (set_obs_state .FAULT))),
  (("IDLE", "assign_started"), ("RESOURCING", some (set_obs_state .RESOURCING))),
  (("IDLE", "release_started"), ("RESOURCING", some (set_obs_state .RESOURCING))),
  (("IDLE", "configure_started"), ("CONFIGURING", some (set_obs_state .CONFIGURING))),
  (("IDLE", "abort_started"), ("ABORTING", some (set_obs_state .ABORTING))),
  (("IDLE", "fatal_error"), ("OBSFAULT", some (set_obs_state .FAULT))),
  (("CONFIGURING", "configure_succeeded"), ("READY", some (set_obs_state .READY))),
  (("CONFIGURING", "configure_failed"), ("OBSFAULT", some (set_obs_state .FAULT))),
  (("CONFIGURING", "abort_started"), ("ABORTING", some (set_obs_state .ABORTING))),
  (("CONFIGURING", "fatal_error"), ("OBSFAULT", some (set_obs_state .FAULT))),
  (("READY", "end_succeeded"), ("IDLE", some (set_obs_state .IDLE))),
  (("READY", "end_failed"), ("OBSFAULT", some (set_obs_state .FAULT))),
  (("READY", "configure_started"), ("CONFIGURING", some (set_obs_state .CONFIGURING))),
  (("READY", "abort_started"), ("ABORTING", some (set_obs_state .ABORTING))),
  (("READY", "scan_started"), ("SCANNING", some (set_obs_state .SCANNING))),
  (("READY", "fatal_error"), ("OBSFAULT", some (set_obs_state .FAULT))),
  (("SCANNING", "scan_succeeded"), ("READY", some (set_obs_state .READY))),
  (("SCANNING", "scan_failed"), ("OBSFAULT", some (set_obs_state .FAULT))),
  (("SCANNING", "end_scan_succeeded"), ("READY", some (set_obs_state .READY))),
  (("SCANNING", "end_scan_failed"), ("OBSFAULT", some (set_obs_state .FAULT))),
  (("SCANNING", "abort_started"), ("ABORTING", some (set_obs_state .ABORTING))),
  (("SCANNING", "fatal_error"), ("OBSFAULT", some (set_obs_state .FAULT))),
  (("ABORTING", "abort_succeeded"), ("ABORTED", some (set_obs_state .ABORTED))),
  (("ABORTING", "abort_failed"), ("OBSFAULT", some (set_obs_state .FAULT))),
  (("ABORTING", "fatal_error"), ("OBSFAULT", some (set_obs_state .FAULT))),
  (("ABORTED", "obs_reset_started"), ("RESETTING", some (set_obs_state .RESETTING))),
  (("ABORTED", "restart_started"), ("RESTARTING", some (set_obs_state .RESTARTING))),
  (("ABORTED", "fatal_error"), ("OBSFAULT", some (set_obs_state .FAULT))),
  (("OBSFAULT", "obs_reset_started"), ("RESETTING", some (set_obs_state .RESETTING))),
  (("OBSFAULT", "restart_started"), ("RESTARTING", some (set_obs_state .RESTARTING))),
  (("OBSFAULT", "fatal_error"), ("OBSFAULT", some (set_obs_state .FAULT))),
  (("RESETTING", "obs_reset_succeeded"), ("IDLE", some (set_obs_state .IDLE))),
  (("RESETTING", "obs_reset_failed"), ("OBSFAULT", some (set_obs_state .FAULT))),
  (("RESETTING", "fatal_error"), ("OBSFAULT", some (set_obs_state .FAULT))),
  (("RESTARTING", "restart_succeeded"), ("EMPTY", some (set_obs_state .EMPTY))),
  (("RESTARTING", "restart_failed"), ("OBSFAULT", some (set_obs_state .FAULT))),
  (("RESTARTING", "fatal_error"), ("OBSFAULT", some (set_obs_state .FAULT)))
]

/-- Embedding of the transition added by `SKAObsDeviceStateModel.__init__`
(`obs_device.py`): `('UNINITIALISED', 'init_started')` moves to
`"INIT (ENABLED)"`, setting admin mode `MAINTENANCE`, op state `INIT` and
obs state `EMPTY`. -/
def obsInitTransitions : TTable SubAux := [
  (("UNINITIALISED", "init_started"),
   ("INIT (ENABLED)",
    some (fun a => set_obs_state .EMPTY (set_state .INIT (set_admin_mode .MAINTENANCE a)))))
]

/-- Modelled from the spec: the transition-table form of
`SKABaseDeviceStateModel` that `SKASubarrayStateModel` builds on is not under
`src/` (`base_device.py` holds an older guard-based revision without a
transition table).  The spec states that `fatal_error` is always permitted,
from every state, and lands in the FAULT family; only the entry actually
reachable through the subarray commands embedded here is included. -/
def baseTransitionsSpec : TTable SubAux := [
  (("OFF", "fatal_error"), ("FAULT", some (set_state .FAULT)))
]

/-- The merged transition table of `SKASubarrayStateModel`: the base-model
table updated (`DeviceStateModel.update_transitions`, i.e. `dict.update`)
with the obs-device entry and then with `_subarray_transitions`.  The three
key sets are disjoint, and later updates take precedence, so lookup order
puts `_subarray_transitions` first. -/
def skaSubarrayTransitions : TTable SubAux :=
  subarrayTransitions ++ obsInitTransitions ++ baseTransitionsSpec

/-- Every state string occurring in the merged `SKASubarrayStateModel`
table. -/
def skaSubarrayModelStates : List String :=
  ["UNINITIALISED", "INIT (ENABLED)", "OFF", "FAULT", "EMPTY", "RESOURCING",
   "IDLE", "CONFIGURING", "READY", "SCANNING", "ABORTING", "ABORTED",
   "OBSFAULT", "RESETTING", "RESTARTING"]

/-- Embedding of `SKASubarray.is_resourced`: returns the resource list,
truthy exactly when it is non-empty. -/
def is_resourced (a : SubAux) : Bool :=
  !a.resources.isEmpty

/-- Embedding of `SKASubarray._ResourcingCommand.succeeded`: branch on
`self.target.is_resourced()` — evaluated after `do()` has run — and perform
the corresponding resourcing-succeeded action. -/
def resourcingSucceeded (m : DSM SubAux) : Except PyErr (DSM SubAux) :=
  if is_resourced m.aux then
    perform_action skaSubarrayTransitions m "resourcing_succeeded_some_resources"
  else
    perform_action skaSubarrayTransitions m "resourcing_succeeded_no_resources"

/-- Embedding of `SKASubarray._ResourcingCommand.failed`: the body reads
`self._state_model`, but no constructor in the class hierarchy ever assigns
an attribute of that name (the `ActionCommand` constructor assigns
`self.state_model`), so the attribute access raises `AttributeError` before
any action is performed. -/
def resourcingFailed (_m : DSM SubAux) : Except PyErr (DSM SubAux) :=
  .error .attributeError

/-- The command classes wired up by `SKASubarray._init_command_objects`:
whether the class derives from `ActionCommand` (`plain`) or
`DualActionCommand` (`dual`), its action hook, and whether it is a
`_ResourcingCommand` (overriding `succeeded` / `failed`). -/
inductive CmdKind where
  | plain
  | dual
deriving DecidableEq, Repr

/-- Descriptor of one `SKASubarray` command class. -/
structure SubCmd where
  kind : CmdKind
  hook : String
  resourcing : Bool
deriving DecidableEq, Repr

/-- The `SKASubarray` commands (`On`, `Off`, `AssignResources`,
`ReleaseResources` / `ReleaseAllResources`, `Configure`, `Scan`, `EndScan`,
`End`, `Abort`, `ObsReset`, `Restart`) with their kinds and hooks as passed
to the constructors in `subarray_device.py`. -/
def skaSubarrayCommands : List SubCmd := [
  ⟨.plain, "on", false⟩,
  ⟨.plain, "off", false⟩,
  ⟨.dual, "assign", true⟩,
  ⟨.dual, "release", true⟩,
  ⟨.dual, "configure", false⟩,
  ⟨.dual, "scan", false⟩,
  ⟨.plain, "end_scan", false⟩,
  ⟨.plain, "end", false⟩,
  ⟨.dual, "abort", false⟩,
  ⟨.dual, "obs_reset", false⟩,
  ⟨.dual, "restart", false⟩
]

/-- Run one `SKASubarray` command with a given `do` hook against the merged
subarray state model: an `ActionCommand` checks (and on success performs)
nothing before `do` and its `check_allowed` tries the `_succeeded` hook; a
`DualActionCommand` tries and performs the `_started` hook.  Resourcing
commands use the overridden `succeeded` / `failed` methods. -/
def runSubCmd (c : SubCmd) (doFn : DoFn SubAux) (m : DSM SubAux) :
    DSM SubAux × Except PyErr (ReturnCode × String) :=
  match c.kind with
  | .plain =>
    commandCall skaSubarrayTransitions false (some (c.hook ++ "_succeeded")) none
      (if c.resourcing then resourcingSucceeded
       else performHook skaSubarrayTransitions (some (c.hook ++ "_succeeded")))
      (if c.resourcing then resourcingFailed
       else performHook skaSubarrayTransitions (some (c.hook ++ "_failed")))
      doFn m
  | .dual =>
    commandCall skaSubarrayTransitions true (some (c.hook ++ "_started"))
      (some (c.hook ++ "_started"))
      (if c.resourcing then resourcingSucceeded
       else performHook skaSubarrayTransitions (some (c.hook ++ "_succeeded")))
      (if c.resourcing then resourcingFailed
       else performHook skaSubarrayTransitions (some (c.hook ++ "_failed")))
      doFn m

/-- Whether `check_allowed` passes for command `c` in model state `s` (it
depends only on the state string, not on the device attributes). -/
def cmdCheckPasses (c : SubCmd) (s : String) : Bool :=
  match c.kind with
  | .plain => (skaSubarrayTransitions.lookup (s, c.hook ++ "_succeeded")).isSome
  | .dual => (skaSubarrayTransitions.lookup (s, c.hook ++ "_started")).isSome

/-- A `do` hook that raises (an arbitrary exception escaping `do()`). -/
def doRaising : DoFn SubAux :=
  fun a => (.error .doException, a)

/-- Embedding of `SKASubarray.AssignResourcesCommand.do`: assign the
requested resources into the target, then return `OK`. -/
def doAssignResources (argin : List String) : DoFn SubAux :=
  fun a => (.ok (.OK, "AssignResources command completed OK"),
            { a with resources := assign_resources a.resources argin })

/-- Embedding of `SKASubarray.ReleaseResourcesCommand.do`: release the
requested resources from the target, then return `OK`. -/
def doReleaseResources (argin : List String) : DoFn SubAux :=
  fun a => (.ok (.OK, "ReleaseResources command completed OK"),
            { a with resources := release_resources a.resources argin })

/-- Embedding of `SKASubarray.ReleaseAllResourcesCommand.do`: clear the
target's resource list, then return `OK`. -/
def doReleaseAllResources : DoFn SubAux :=
  fun a => (.ok (.OK, "ReleaseAllResources command completed OK"),
            { a with resources := release_all_resources a.resources })

/-- The `AssignResources` command invocation. -/
def assignResourcesCall (argin : List String) (m : DSM SubAux) :
    DSM SubAux × Except PyErr (ReturnCode × String) :=
  runSubCmd ⟨.dual, "assign", true⟩ (doAssignResources argin) m

/-- The `ReleaseResources` command invocation. -/
def releaseResourcesCall (argin : List String) (m : DSM SubAux) :
    DSM SubAux × Except PyErr (ReturnCode × String) :=
  runSubCmd ⟨.dual, "release", true⟩ (doReleaseResources argin) m

/-- The `ReleaseAllResources` command invocation (hook `"release"`, like
`ReleaseResources`, but with the clear-all `do`). -/
def releaseAllResourcesCall (m : DSM SubAux) :
    DSM SubAux × Except PyErr (ReturnCode × String) :=
  runSubCmd ⟨.dual, "release", true⟩ doReleaseAllResources m

/-- Device attributes of a freshly initialised subarray: no resources, op
state `UNKNOWN`, no admin mode, no callback invocations yet. -/
def aux0 : SubAux :=
  ⟨[], .UNKNOWN, none, []⟩

/-- One transition declaration of a `transitions.Machine`
(`state_machine.py`): a source list (the library's `"*"` wildcard matches
any state), a trigger name and a destination state. -/
structure MTransition where
  sources : List String
  trigger : String
  dest : String
deriving DecidableEq, Repr

/-- Whether a transition declaration applies in state `s`: the state is in
the source list, or the list holds the `"*"` wildcard. -/
def sourceMatches (tr : MTransition) (s : String) : Bool :=
  tr.sources.contains "*" || tr.sources.contains s

/-- The destination, if any, of firing `trig` in state `s`: the first
declared transition with that trigger whose sources match.  `none` means the
trigger is not allowed in that state (the library raises `MachineError`). -/
def machineNext (ts : List MTransition) (s trig : String) : Option String :=
  (ts.find? (fun tr => tr.trigger == trig && sourceMatches tr s)).map (·.dest)

/-- The states of `DeviceStateMachine` (`state_machine.py`). -/
def deviceMachineStates : List String :=
  ["UNINITIALISED", "INIT", "FAULT", "DISABLED", "STANDBY", "OFF", "ON"]

/-- The transitions of `DeviceStateMachine` (`state_machine.py`), in source
order. -/
def deviceMachineTransitions : List MTransition := [
  ⟨["UNINITIALISED"], "init_started", "INIT"⟩,
  ⟨["INIT", "FAULT", "DISABLED", "STANDBY", "OFF", "ON"], "fatal_error", "FAULT"⟩,
  ⟨["INIT"], "init_succeeded_disabled", "DISABLED"⟩,
  ⟨["INIT"], "init_succeeded_standby", "STANDBY"⟩,
  ⟨["INIT"], "init_succeeded_off", "OFF"⟩,
  ⟨["INIT"], "init_failed", "FAULT"⟩,
  ⟨["FAULT"], "reset_succeeded_disabled", "DISABLED"⟩,
  ⟨["FAULT"], "reset_succeeded_standby", "STANDBY"⟩,
  ⟨["FAULT"], "reset_succeeded_off", "OFF"⟩,
  ⟨["FAULT"], "reset_failed", "FAULT"⟩,
  ⟨["DISABLED", "OFF"], "standby_succeeded", "STANDBY"⟩,
  ⟨["DISABLED", "OFF"], "standby_failed", "FAULT"⟩,
  ⟨["STANDBY", "OFF"], "disable_succeeded", "DISABLED"⟩,
  ⟨["STANDBY", "OFF"], "disable_failed", "FAULT"⟩,
  ⟨["DISABLED", "STANDBY", "ON"], "off_succeeded", "OFF"⟩,
  ⟨["DISABLED", "STANDBY", "ON"], "off_failed", "FAULT"⟩,
  ⟨["OFF"], "on_succeeded", "ON"⟩,
  ⟨["OFF"], "on_failed", "FAULT"⟩
]

/-- The triggers of `DeviceStateMachine`. -/
def deviceMachineTriggers : List String :=
  ["init_started", "fatal_error", "init_succeeded_disabled",
   "init_succeeded_standby", "init_succeeded_off", "init_failed",
   "reset_succeeded_disabled", "reset_succeeded_standby",
   "reset_succeeded_off", "reset_failed", "standby_succeeded",
   "standby_failed", "disable_succeeded", "disable_failed", "off_succeeded",
   "off_failed", "on_succeeded", "on_failed"]

/-- The `DevState` value written by each state's `on_enter` callback of
`DeviceStateMachine` (`_init_entered`, `_fault_entered`, ...);
`UNINITIALISED` declares no `on_enter`. -/
def deviceStateDevS (s : String) : Option DevS :=
  if s = "INIT" then some .INIT
  else if s = "FAULT" then some .FAULT
  else if s = "DISABLED" then some .DISABLE
  else if s = "STANDBY" then some .STANDBY
  else if s = "OFF" then some .OFF
  else if s = "ON" then some .ON
  else none

/-- A `DeviceStateMachine` instance: the machine state and the recorded
`_op_state` (initially `None`). -/
structure DevMachine where
  state : String
  opState : Option DevS
deriving DecidableEq, Repr

/-- Embedding of `DeviceStateMachine._update_op_state`: set `_op_state` and
invoke the op-state callback only when the value changes; the returned list
records the callback invocations. -/
def updateOpState (m : DevMachine) (v : DevS) : DevMachine × List DevS :=
  if m.opState = some v then (m, [])
  else ({ m with opState := some v }, [v])

/-- One trigger firing on `DeviceStateMachine`: if some declared transition
matches, move to its destination and run the destination's `on_enter`
callback (which calls `_update_op_state`); `none` when the trigger is not
allowed.  The `transitions` library re-enters a state (running `on_enter`)
even when source and destination coincide. -/
def devMachineStep (m : DevMachine) (trig : String) :
    Option (DevMachine × List DevS) :=
  (machineNext deviceMachineTransitions m.state trig).map (fun d =>
    match deviceStateDevS d with
    | none => ({ m with state := d }, [])
    | some v => updateOpState { m with state := d } v)

/-- The states of `ObservationStateMachine`: every `ObsState` name. -/
def obsMachineStates : List String :=
  ["EMPTY", "RESOURCING", "IDLE", "CONFIGURING", "READY", "SCANNING",
   "ABORTING", "ABORTED", "RESETTING", "FAULT", "RESTARTING"]

/-- The transitions of `ObservationStateMachine` (`state_machine.py`), in
source order. -/
def obsMachineTransitions : List MTransition := [
  ⟨["*"], "fatal_error", "FAULT"⟩,
  ⟨["EMPTY", "IDLE"], "assign_started", "RESOURCING"⟩,
  ⟨["IDLE"], "release_started", "RESOURCING"⟩,
  ⟨["RESOURCING"], "resourcing_succeeded_some_resources", "IDLE"⟩,
  ⟨["RESOURCING"], "resourcing_succeeded_no_resources", "EMPTY"⟩,
  ⟨["RESOURCING"], "resourcing_failed", "FAULT"⟩,
  ⟨["IDLE", "READY"], "configure_started", "CONFIGURING"⟩,
  ⟨["CONFIGURING"], "configure_succeeded", "READY"⟩,
  ⟨["CONFIGURING"], "configure_failed", "FAULT"⟩,
  ⟨["READY"], "end_succeeded", "IDLE"⟩,
  ⟨["READY"], "end_failed", "FAULT"⟩,
  ⟨["READY"], "scan_started", "SCANNING"⟩,
  ⟨["SCANNING"], "scan_succeeded", "READY"⟩,
  ⟨["SCANNING"], "scan_failed", "FAULT"⟩,
  ⟨["SCANNING"], "end_scan_succeeded", "READY"⟩,
  ⟨["SCANNING"], "end_scan_failed", "FAULT"⟩,
  ⟨["IDLE", "CONFIGURING", "READY", "SCANNING", "RESETTING"], "abort_started", "ABORTING"⟩,
  ⟨["ABORTING"], "abort_succeeded", "ABORTED"⟩,
  ⟨["ABORTING"], "abort_failed", "FAULT"⟩,
  ⟨["ABORTED", "FAULT"], "obs_reset_started", "RESETTING"⟩,
  ⟨["RESETTING"], "obs_reset_succeeded", "IDLE"⟩,
  ⟨["RESETTING"], "obs_reset_failed", "FAULT"⟩,
  ⟨["ABORTED", "FAULT"], "restart_started", "RESTARTING"⟩,
  ⟨["RESTARTING"], "restart_succeeded", "EMPTY"⟩,
  ⟨["RESTARTING"], "restart_failed", "FAULT"⟩
]

/-- The triggers of `ObservationStateMachine`. -/
def obsMachineTriggers : List String :=
  ["fatal_error", "assign_started", "release_started",
   "resourcing_succeeded_some_resources", "resourcing_succeeded_no_resources",
   "resourcing_failed", "configure_started", "configure_succeeded",
   "configure_failed", "end_succeeded", "end_failed", "scan_started",
   "scan_succeeded", "scan_failed", "end_scan_succeeded", "end_scan_failed",
   "abort_started", "abort_succeeded", "abort_failed", "obs_reset_started",
   "obs_reset_succeeded", "obs_reset_failed", "restart_started",
   "restart_failed", "restart_succeeded"]

/-- `ObsState[name]`: the enum member with the given name (every machine
state is such a name). -/
def obsStateOfName (s : String) : ObsState :=
  if s = "RESOURCING" then .RESOURCING
  else if s = "IDLE" then .IDLE
  else if s = "CONFIGURING" then .CONFIGURING
  else if s = "READY" then .READY
  else if s = "SCANNING" then .SCANNING
  else if s = "ABORTING" then .ABORTING
  else if s = "ABORTED" then .ABORTED
  else if s = "RESETTING" then .RESETTING
  else if s = "FAULT" then .FAULT
  else if s = "RESTARTING" then .RESTARTING
  else .EMPTY

/-- An `ObservationStateMachine` instance: the machine state and the
recorded `_obs_state` (initially `ObsState.EMPTY`). -/
structure ObsMachine where
  state : String
  obsState : ObsState
deriving DecidableEq, Repr

/-- One trigger firing on `ObservationStateMachine`: if some declared
transition matches, move to its destination and run the
`after_state_change` callback `_obs_state_changed`, which invokes the
obs-state callback only when `ObsState[self.state]` differs from the
recorded `_obs_state`. -/
def obsMachineStep (m : ObsMachine) (trig : String) :
    Option (ObsMachine × List ObsState) :=
  (machineNext obsMachineTransitions m.state trig).map (fun d =>
    let v := obsStateOfName d
    if m.obsState = v then ({ m with state := d }, [])
    else ({ state := d, obsState := v }, [v]))

/-- The callback invocations `DeviceStateMachine` should make on entering
state `dest` with recorded op state `op`: the destination's `DevState`
value, exactly when it differs from the recorded one. -/
def devCallbackSpec (op : Option DevS) (dest : String) : List DevS :=
  match deviceStateDevS dest with
  | none => []
  | some v => if op = some v then [] else [v]

/-- A store of Python list objects, for reasoning about aliasing: each cell
is one list object, addressed by its index. -/
structure Store where
  cells : List (List String)
deriving DecidableEq, Repr

/-- The contents of the list object at `addr`. -/
def Store.read (st : Store) (addr : Nat) : List String :=
  st.cells.getD addr []

/-- `obj.append(x)` on the list object at `addr`: mutates that one cell in
place. -/
def Store.append (st : Store) (addr : Nat) (x : String) : Store :=
  ⟨st.cells.set addr (st.cells.getD addr [] ++ [x])⟩

/-- The attribute of `SKASubarray` relevant to the `assignedResources`
attribute: `_assigned_resources` holds a reference to a list object. -/
structure SubDevice where
  assigned_resources : Nat
deriving DecidableEq, Repr

/-- Embedding of `SKASubarray.read_assignedResources`:
`return self._assigned_resources` — the returned value is the very list
object the device holds, not a copy. -/
def read_assignedResources (dev : SubDevice) : Nat :=
  dev.assigned_resources

/-- Modelled from the spec, for comparison with the code: the spec's
`get()` contract returns a defensive copy — a freshly allocated list object
with the same contents. -/
def read_assignedResources_snapshot (dev : SubDevice) (st : Store) :
    Nat × Store :=
  (st.cells.length, ⟨st.cells ++ [st.read dev.assigned_resources]⟩)

/-- All values `_op_state` of `DeviceStateMachine` can hold: `None` before
the first transition, then one of the used `DevState` values. -/
def deviceOpStateValues : List (Option DevS) :=
  [none, some .UNKNOWN, some .INIT, some .FAULT, some .DISABLE,
   some .STANDBY, some .OFF, some .ON]

/-- All `ObsState` values. -/
def obsStateValues : List ObsState :=
  [.EMPTY, .RESOURCING, .IDLE, .CONFIGURING, .READY, .SCANNING, .ABORTING,
   .ABORTED, .RESETTING, .FAULT, .RESTARTING]

/- ------------------------------------------------------------------ -/
/- Helper lemmas                                                       -/
/- ------------------------------------------------------------------ -/

theorem lookup_resourcing_some :
    skaSubarrayTransitions.lookup ("RESOURCING", "resourcing_succeeded_some_resources") =
      some ("IDLE", some (set_obs_state .IDLE)) := rfl

theorem lookup_resourcing_none :
    skaSubarrayTransitions.lookup ("RESOURCING", "resourcing_succeeded_no_resources") =
      some ("EMPTY", some (set_obs_state .EMPTY)) := rfl

theorem resourcingSucceeded_at_resourcing (a : SubAux) :
    resourcingSucceeded ⟨"RESOURCING", a⟩ =
      .ok (if a.resources.isEmpty
           then (⟨"EMPTY", set_obs_state .EMPTY a⟩ : DSM SubAux)
           else ⟨"IDLE", set_obs_state .IDLE a⟩) := by
  unfold resourcingSucceeded is_resourced
  cases h : a.resources.isEmpty <;>
    simp [h, perform_action, lookup_resourcing_some, lookup_resourcing_none, applyEff]

/-- Evaluation of a resourcing `DualActionCommand` whose `do` succeeds with
`OK` after replacing the target's resource list by `doRes` of it, from any
state whose `_started` transition is the usual move to `RESOURCING`. -/
theorem dualResourcingCall_eval (hook : String) (doRes : List String → List String)
    (msg : String) (s : String) (a : SubAux)
    (hstart : skaSubarrayTransitions.lookup (s, hook ++ "_started") =
      some ("RESOURCING", some (set_obs_state .RESOURCING))) :
    runSubCmd ⟨.dual, hook, true⟩
        (fun x => (.ok (.OK, msg), { x with resources := doRes x.resources }))
        ⟨s, a⟩ =
      (if (doRes a.resources).isEmpty
       then ⟨"EMPTY", ⟨doRes a.resources, a.opState, a.adminMode,
                       a.events ++ [.obs .RESOURCING, .obs .EMPTY]⟩⟩
       else ⟨"IDLE", ⟨doRes a.resources, a.opState, a.adminMode,
                      a.events ++ [.obs .RESOURCING, .obs .IDLE]⟩⟩,
       .ok (.OK, msg)) := by
  unfold runSubCmd commandCall check_allowed performHook try_action is_action_allowed
  simp only [perform_action, hstart, Option.isSome_some, if_true, applyEff]
  have h2 : ({ set_obs_state .RESOURCING a with
               resources := doRes (set_obs_state .RESOURCING a).resources } : SubAux) =
      ⟨doRes a.resources, a.opState, a.adminMode, a.events ++ [.obs .RESOURCING]⟩ := rfl
  simp only [returnedDual, h2, resourcingSucceeded_at_resourcing]
  cases h : (doRes a.resources).isEmpty <;> simp [h, set_obs_state]

/- ------------------------------------------------------------------ -/
/- Claim theorems                                                      -/
/- ------------------------------------------------------------------ -/

/-- C1: for every state model built on `DeviceStateModel` and every
`(current-state, action)` pair, if the pair is in the transition table then
`perform_action` moves the model to exactly the declared next state (running
the declared side effect), and if the pair is absent `perform_action` raises
`StateModelError` and leaves the model unchanged — no silent no-op. -/
theorem performActionTableSpec {α : Type} (t : TTable α) (m : DSM α) (a : String) :
    (∀ s2 eff, t.lookup (m.state, a) = some (s2, eff) →
      stepPerform t m a = ({ state := s2, aux := applyEff eff m.aux }, none)) ∧
    (t.lookup (m.state, a) = none →
      stepPerform t m a = (m, some .stateModelError)) := by
  constructor
  · intro s2 eff h
    simp [stepPerform, perform_action, h]
  · intro h
    simp [stepPerform, perform_action, h]

/-- Witness for C1, on the `SKASubarrayStateModel` table: `assign_started`
is declared in `EMPTY` and moves to `RESOURCING`; `release_started` is not
declared in `EMPTY` and raises, leaving the model unchanged. -/
theorem performActionTableSpec_witness :
    stepPerform skaSubarrayTransitions ⟨"EMPTY", aux0⟩ "assign_started" =
      ({ state := "RESOURCING",
         aux := applyEff (some (set_obs_state .RESOURCING)) aux0 }, none) ∧
    stepPerform skaSubarrayTransitions ⟨"EMPTY", aux0⟩ "release_started" =
      (⟨"EMPTY", aux0⟩, some .stateModelError) :=
  ⟨(performActionTableSpec skaSubarrayTransitions ⟨"EMPTY", aux0⟩ "assign_started").1
      "RESOURCING" (some (set_obs_state .RESOURCING)) rfl,
   (performActionTableSpec skaSubarrayTransitions ⟨"EMPTY", aux0⟩ "release_started").2 rfl⟩

/-- C3: evidence of the code bug in `_ResourcingCommand.failed`.  A
resourcing command invoked from `IDLE` whose `do()` returns `FAILED` does
not perform `resourcing_failed` and does not return the `(FAILED, message)`
pair: `failed()` reads the never-assigned attribute `_state_model` and
raises `AttributeError`, which the command envelope turns into a
`fatal_error` action (landing in `OBSFAULT`) before the `AttributeError`
propagates to the caller. -/
theorem resourcingFailedPathRaises :
    (runSubCmd ⟨.dual, "release", true⟩
        (fun a => (.ok (.FAILED, "release failed"), a))
        ⟨"IDLE", ⟨["X"], .ON, some .ONLINE, []⟩⟩).2 = .error .attributeError ∧
    (runSubCmd ⟨.dual, "release", true⟩
        (fun a => (.ok (.FAILED, "release failed"), a))
        ⟨"IDLE", ⟨["X"], .ON, some .ONLINE, []⟩⟩).1.state = "OBSFAULT" :=
  ⟨rfl, rfl⟩

/-- C4 counterexample: calling `ReleaseAllResources()` while the resource
set is already empty and the observation state is `EMPTY` does not succeed —
`check_allowed` tries `release_started`, which is not declared in `EMPTY`,
so a `StateModelError` is raised and the model is unchanged. -/
theorem releaseAllFromEmptyRejected :
    releaseAllResourcesCall ⟨"EMPTY", aux0⟩ =
      (⟨"EMPTY", aux0⟩, .error .stateModelError) := rfl

/-- C4 (amended): `ReleaseAllResources()` invoked from `IDLE` with an
already-empty resource set succeeds with `OK` and lands in `EMPTY` with the
set still empty; invoked while the observation state is `EMPTY` it is
rejected with a `StateModelError` (the `release_started` action is only
declared in `IDLE`). -/
theorem releaseAllWhenEmptyAmended :
    (releaseAllResourcesCall ⟨"IDLE", aux0⟩).2 =
      .ok (.OK, "ReleaseAllResources command completed OK") ∧
    (releaseAllResourcesCall ⟨"IDLE", aux0⟩).1.state = "EMPTY" ∧
    (releaseAllResourcesCall ⟨"IDLE", aux0⟩).1.aux.resources = [] ∧
    releaseAllResourcesCall ⟨"EMPTY", aux0⟩ =
      (⟨"EMPTY", aux0⟩, .error .stateModelError) :=
  ⟨rfl, rfl, rfl, rfl⟩

/-- C5 counterexample: `fatal_error` is not permitted in every state of the
device lifecycle machine — `UNINITIALISED` is a state of
`DeviceStateMachine`, but no `fatal_error` transition is declared there
(its source list is only `INIT`/`FAULT`/`DISABLED`/`STANDBY`/`OFF`/`ON`). -/
theorem fatalErrorNotFromUninitialised :
    "UNINITIALISED" ∈ deviceMachineStates ∧
    machineNext deviceMachineTransitions "UNINITIALISED" "fatal_error" = none := by
  decide

/-- C5 (amended): `fatal_error` is permitted in every state of the device
lifecycle machine except the initial `UNINITIALISED` state, and in every
state of the observation machine, in each case landing in `FAULT`. -/
theorem fatalErrorAlwaysToFault :
    (∀ s ∈ deviceMachineStates, s ≠ "UNINITIALISED" →
      machineNext deviceMachineTransitions s "fatal_error" = some "FAULT") ∧
    (∀ s ∈ obsMachineStates,
      machineNext obsMachineTransitions s "fatal_error" = some "FAULT") := by
  decide

/-- Witness for C5 (amended), at `ON` and `SCANNING`. -/
theorem fatalErrorAlwaysToFault_witness :
    ("ON" ∈ deviceMachineStates ∧ "ON" ≠ "UNINITIALISED" ∧
      machineNext deviceMachineTransitions "ON" "fatal_error" = some "FAULT") ∧
    ("SCANNING" ∈ obsMachineStates ∧
      machineNext obsMachineTransitions "SCANNING" "fatal_error" = some "FAULT") :=
  ⟨⟨by decide, by decide, fatalErrorAlwaysToFault.1 "ON" (by decide) (by decide)⟩,
   ⟨by decide, fatalErrorAlwaysToFault.2 "SCANNING" (by decide)⟩⟩

/-- C7: resource bookkeeping is idempotent — assigning a resource twice
yields the same set as assigning it once, releasing a resource that is not
held leaves the set unchanged, and a second `release_all` is a no-op. -/
theorem resourceBookkeepingIdempotent (S : List String) (r : String) :
    assign_resources (assign_resources S [r]) [r] = assign_resources S [r] ∧
    (r ∉ S → release_resources S [r] = S) ∧
    release_all_resources (release_all_resources S) = release_all_resources S := by
  refine ⟨?_, ?_, rfl⟩
  · simp only [assign_resources, List.foldl_cons, List.foldl_nil]
    by_cases h : r ∈ S
    · simp [h]
    · simp [h]
  · intro hr
    simp [release_resources, hr]

/-- Witness for C7, at `S = ["A"]`, `r = "B"`. -/
theorem resourceBookkeepingIdempotent_witness :
    assign_resources (assign_resources ["A"] ["B"]) ["B"] =
      assign_resources ["A"] ["B"] ∧
    ("B" ∉ (["A"] : List String) ∧ release_resources ["A"] ["B"] = ["A"]) :=
  ⟨(resourceBookkeepingIdempotent ["A"] "B").1,
   by decide,
   (resourceBookkeepingIdempotent ["A"] "B").2.1 (by decide)⟩

/-- C10: `BaseCommand.__call__` wraps the `(return_code, message)` pair
returned by `do()` component-wise into one-element tuples,
`((return_code,), (message,))` (modelled as singleton lists) — unlike
`ActionCommand.__call__` / `DualActionCommand.__call__`, which return the
flat `(return_code, message)` pair (here shown for the `End` command). -/
theorem baseCommandCallWrapsSingletons (rc : ReturnCode) (msg : String) :
    baseCommandCall (rc, msg) = ([rc], [msg]) ∧
    (runSubCmd ⟨.plain, "end", false⟩ (fun a => (.ok (.OK, msg), a))
        ⟨"READY", aux0⟩).2 = .ok (.OK, msg) :=
  ⟨rfl, rfl⟩

/-- C2: for every `SKASubarray` command (`ActionCommand` or
`DualActionCommand`) and every model state in which its `check_allowed`
passes, a `do()` that raises leads to the `fatal_error` action being
performed: the exception propagates to the caller and the model ends in a
FAULT-family state (`FAULT` or `OBSFAULT`), never in the transient started
state. -/
theorem commandDoErrorDrivesFault (c : SubCmd) (hc : c ∈ skaSubarrayCommands)
    (s : String) (hs : s ∈ skaSubarrayModelStates) (a : SubAux)
    (h : cmdCheckPasses c s = true) :
    (runSubCmd c doRaising ⟨s, a⟩).2 = .error .doException ∧
    ((runSubCmd c doRaising ⟨s, a⟩).1.state = "FAULT" ∨
     (runSubCmd c doRaising ⟨s, a⟩).1.state = "OBSFAULT") := by
  fin_cases hc <;> fin_cases hs <;>
    first
      | exact absurd h (by decide)
      | exact ⟨rfl, Or.inl rfl⟩
      | exact ⟨rfl, Or.inr rfl⟩

/-- Witness for C2: `AssignResources` in `EMPTY` with a raising `do`
propagates the exception and lands in `OBSFAULT`. -/
theorem commandDoErrorDrivesFault_witness :
    (⟨.dual, "assign", true⟩ : SubCmd) ∈ skaSubarrayCommands ∧
    "EMPTY" ∈ skaSubarrayModelStates ∧
    cmdCheckPasses ⟨.dual, "assign", true⟩ "EMPTY" = true ∧
    ((runSubCmd ⟨.dual, "assign", true⟩ doRaising ⟨"EMPTY", aux0⟩).2 =
        .error .doException ∧
      ((runSubCmd ⟨.dual, "assign", true⟩ doRaising ⟨"EMPTY", aux0⟩).1.state = "FAULT" ∨
       (runSubCmd ⟨.dual, "assign", true⟩ doRaising ⟨"EMPTY", aux0⟩).1.state = "OBSFAULT")) :=
  ⟨by decide, by decide, by decide,
   commandDoErrorDrivesFault ⟨.dual, "assign", true⟩ (by decide) "EMPTY" (by decide)
     aux0 (by decide)⟩

/-- C6: a resourcing command that completes with `OK` branches on the
post-operation resource set: the observation state becomes `IDLE` when the
set is non-empty afterwards and `EMPTY` when it is empty afterwards — for
`AssignResources` from `EMPTY` or `IDLE`, and for `ReleaseResources` /
`ReleaseAllResources` from `IDLE`.  The branch condition is literally the
post-operation set, independent of the pre-operation set. -/
theorem resourcingBranchOnPostSet (s : String)
    (hs : s ∈ (["EMPTY", "IDLE"] : List String)) (a : SubAux)
    (argin : List String) :
    ((assignResourcesCall argin ⟨s, a⟩).2 =
        .ok (.OK, "AssignResources command completed OK") ∧
      (assignResourcesCall argin ⟨s, a⟩).1.state =
        (if (assign_resources a.resources argin).isEmpty then "EMPTY" else "IDLE") ∧
      (assignResourcesCall argin ⟨s, a⟩).1.aux.resources =
        assign_resources a.resources argin) ∧
    ((releaseResourcesCall argin ⟨"IDLE", a⟩).2 =
        .ok (.OK, "ReleaseResources command completed OK") ∧
      (releaseResourcesCall argin ⟨"IDLE", a⟩).1.state =
        (if (release_resources a.resources argin).isEmpty then "EMPTY" else "IDLE") ∧
      (releaseResourcesCall argin ⟨"IDLE", a⟩).1.aux.resources =
        release_resources a.resources argin) ∧
    ((releaseAllResourcesCall ⟨"IDLE", a⟩).2 =
        .ok (.OK, "ReleaseAllResources command completed OK") ∧
      (releaseAllResourcesCall ⟨"IDLE", a⟩).1.state = "EMPTY") := by
  have krel : releaseResourcesCall argin ⟨"IDLE", a⟩ =
      (if (release_resources a.resources argin).isEmpty
       then (⟨"EMPTY", ⟨release_resources a.resources argin, a.opState, a.adminMode,
                        a.events ++ [.obs .RESOURCING, .obs .EMPTY]⟩⟩ : DSM SubAux)
       else ⟨"IDLE", ⟨release_resources a.resources argin, a.opState, a.adminMode,
                      a.events ++ [.obs .RESOURCING, .obs .IDLE]⟩⟩,
       .ok (.OK, "ReleaseResources command completed OK")) :=
    dualResourcingCall_eval "release" (fun l => release_resources l argin) _ "IDLE" a rfl
  have krelall : releaseAllResourcesCall ⟨"IDLE", a⟩ =
      (if ([] : List String).isEmpty
       then (⟨"EMPTY", ⟨[], a.opState, a.adminMode,
                        a.events ++ [.obs .RESOURCING, .obs .EMPTY]⟩⟩ : DSM SubAux)
       else ⟨"IDLE", ⟨[], a.opState, a.adminMode,
                      a.events ++ [.obs .RESOURCING, .obs .IDLE]⟩⟩,
       .ok (.OK, "ReleaseAllResources command completed OK")) :=
    dualResourcingCall_eval "release" (fun _ => []) _ "IDLE" a rfl
  fin_cases hs
  · have kass : assignResourcesCall argin ⟨"EMPTY", a⟩ =
        (if (assign_resources a.resources argin).isEmpty
         then (⟨"EMPTY", ⟨assign_resources a.resources argin, a.opState, a.adminMode,
                          a.events ++ [.obs .RESOURCING, .obs .EMPTY]⟩⟩ : DSM SubAux)
         else ⟨"IDLE", ⟨assign_resources a.resources argin, a.opState, a.adminMode,
                        a.events ++ [.obs .RESOURCING, .obs .IDLE]⟩⟩,
         .ok (.OK, "AssignResources command completed OK")) :=
      dualResourcingCall_eval "assign" (fun l => assign_resources l argin) _ "EMPTY" a rfl
    rw [kass, krel, krelall]
    refine ⟨?_, ?_, ?_⟩
    · cases h : (assign_resources a.resources argin).isEmpty <;> simp [h]
    · cases h : (release_resources a.resources argin).isEmpty <;> simp [h]
    · simp
  · have kass : assignResourcesCall argin ⟨"IDLE", a⟩ =
        (if (assign_resources a.resources argin).isEmpty
         then (⟨"EMPTY", ⟨assign_resources a.resources argin, a.opState, a.adminMode,
                          a.events ++ [.obs .RESOURCING, .obs .EMPTY]⟩⟩ : DSM SubAux)
         else ⟨"IDLE", ⟨assign_resources a.resources argin, a.opState, a.adminMode,
                        a.events ++ [.obs .RESOURCING, .obs .IDLE]⟩⟩,
         .ok (.OK, "AssignResources command completed OK")) :=
      dualResourcingCall_eval "assign" (fun l => assign_resources l argin) _ "IDLE" a rfl
    rw [kass, krel, krelall]
    refine ⟨?_, ?_, ?_⟩
    · cases h : (assign_resources a.resources argin).isEmpty <;> simp [h]
    · cases h : (release_resources a.resources argin).isEmpty <;> simp [h]
    · simp

/-- Witness for C6: assigning `["X"]` from `EMPTY` (pre-set empty, post-set
non-empty) lands in `IDLE`, and `ReleaseAllResources` from `IDLE` lands in
`EMPTY`. -/
theorem resourcingBranchOnPostSet_witness :
    (assignResourcesCall ["X"] ⟨"EMPTY", aux0⟩).1.state = "IDLE" ∧
    (releaseAllResourcesCall ⟨"IDLE", aux0⟩).1.state = "EMPTY" := by
  have h := resourcingBranchOnPostSet "EMPTY" (by decide) aux0 ["X"]
  exact ⟨by rw [h.1.2.1]; rfl, h.2.2.2⟩

/-- C8 counterexample: `read_assignedResources` does not return a defensive
copy — with the device's `_assigned_resources` holding the list object
`["X"]`, appending `"Y"` to the returned value changes the set held by the
device to `["X", "Y"]`. -/
theorem readAssignedResourcesNotACopy :
    (Store.append ⟨[["X"]]⟩ (read_assignedResources ⟨0⟩) "Y").read 0 = ["X", "Y"] ∧
    Store.read ⟨[["X"]]⟩ 0 = ["X"] := by
  decide

/-- C8 (amended): `read_assignedResources` returns the live list object
(the very reference the device holds), so mutating the returned value does
change the device's resource set; a defensive copy (the snapshot variant
modelled from the spec) would leave it unchanged. -/
theorem readAssignedResourcesIsLive (dev : SubDevice) (st : Store) (x : String)
    (h : dev.assigned_resources < st.cells.length) :
    read_assignedResources dev = dev.assigned_resources ∧
    (st.append (read_assignedResources dev) x).read dev.assigned_resources =
      st.read dev.assigned_resources ++ [x] ∧
    ((read_assignedResources_snapshot dev st).2.append
        (read_assignedResources_snapshot dev st).1 x).read dev.assigned_resources =
      st.read dev.assigned_resources := by
  refine ⟨rfl, ?_, ?_⟩
  · simp only [Store.read, Store.append, read_assignedResources]
    rw [List.getD_eq_getD_get?, List.get?_set_eq_of_lt _ h]
    rfl
  · simp only [Store.read, Store.append, read_assignedResources,
      read_assignedResources_snapshot]
    rw [List.getD_eq_getD_get?, List.get?_set_ne _ _ (Nat.ne_of_gt h),
      ← List.getD_eq_getD_get?]
    exact List.getD_append _ _ _ _ h

/-- Witness for C8 (amended), at a one-cell store. -/
theorem readAssignedResourcesIsLive_witness :
    (0 : Nat) < 1 ∧
    (Store.append ⟨[["X"]]⟩ (read_assignedResources ⟨0⟩) "Y").read 0 =
      Store.read ⟨[["X"]]⟩ 0 ++ ["Y"] :=
  ⟨by decide, (readAssignedResourcesIsLive ⟨0⟩ ⟨[["X"]]⟩ "Y" (by decide)).2.1⟩

/-- C9 (amended): the `state_machine.py` hooks are invoked exactly on a
change — for every `DeviceStateMachine` transition the op-state callback is
invoked with the destination's `DevState` value exactly when it differs
from the recorded one, and for every `ObservationStateMachine` transition
the obs-state callback is invoked with the destination's `ObsState` value
exactly when it differs from the recorded one — but the
`SKAObsDeviceStateModel._set_obs_state` hook used by the subarray model has
no changed-value guard: a `fatal_error` performed in `OBSFAULT` (a
transition to the same state and value) still invokes the obs-state
callback with `FAULT`. -/
theorem callbackOnChangeAmended :
    (∀ s ∈ deviceMachineStates, ∀ trig ∈ deviceMachineTriggers,
      ∀ op ∈ deviceOpStateValues,
      (devMachineStep ⟨s, op⟩ trig).all
        (fun p => p.2 == devCallbackSpec op p.1.state) = true) ∧
    (∀ s ∈ obsMachineStates, ∀ trig ∈ obsMachineTriggers, ∀ v ∈ obsStateValues,
      (obsMachineStep ⟨s, v⟩ trig).all
        (fun p => p.2 == (if v = obsStateOfName p.1.state then []
                          else [obsStateOfName p.1.state])) = true) ∧
    (∀ a : SubAux,
      perform_action skaSubarrayTransitions ⟨"OBSFAULT", a⟩ "fatal_error" =
        .ok ⟨"OBSFAULT", { a with events := a.events ++ [.obs .FAULT] }⟩) := by
  refine ⟨by decide, by decide, fun a => rfl⟩

/-- Witness for C9 (amended): a changing transition (`OFF` → `ON`) invokes
the op-state callback with the new value; a value-preserving obs-machine
transition (`FAULT` → `fatal_error` → `FAULT`) invokes nothing. -/
theorem callbackOnChangeAmended_witness :
    ("OFF" ∈ deviceMachineStates ∧ "on_succeeded" ∈ deviceMachineTriggers ∧
      some DevS.OFF ∈ deviceOpStateValues ∧
      (devMachineStep ⟨"OFF", some .OFF⟩ "on_succeeded").all
        (fun p => p.2 == devCallbackSpec (some .OFF) p.1.state) = true) ∧
    ("FAULT" ∈ obsMachineStates ∧ "fatal_error" ∈ obsMachineTriggers ∧
      ObsState.FAULT ∈ obsStateValues ∧
      (obsMachineStep ⟨"FAULT", .FAULT⟩ "fatal_error").all
        (fun p => p.2 == (if ObsState.FAULT = obsStateOfName p.1.state then []
                          else [obsStateOfName p.1.state])) = true) :=
  ⟨⟨by decide, by decide, by decide,
    callbackOnChangeAmended.1 "OFF" (by decide) "on_succeeded" (by decide)
      (some .OFF) (by decide)⟩,
   ⟨by decide, by decide, by decide,
    callbackOnChangeAmended.2.1 "FAULT" (by decide) "fatal_error" (by decide)
      .FAULT (by decide)⟩⟩

/-- C9 counterexample: the obs-state callback hook is invoked on a
transition to the same value.  From `RESOURCING`, a first `fatal_error`
moves to `OBSFAULT` and invokes the callback with `FAULT`; a second
`fatal_error` is a transition to the same state and the same value, yet it
invokes the callback with `FAULT` again. -/
theorem obsCallbackInvokedWithoutChange :
    perform_action skaSubarrayTransitions ⟨"RESOURCING", aux0⟩ "fatal_error" =
      .ok ⟨"OBSFAULT", { aux0 with events := [.obs .FAULT] }⟩ ∧
    perform_action skaSubarrayTransitions
        ⟨"OBSFAULT", { aux0 with events := [.obs .FAULT] }⟩ "fatal_error" =
      .ok ⟨"OBSFAULT", { aux0 with events := [.obs .FAULT, .obs .FAULT] }⟩ :=
  ⟨rfl, rfl⟩

end SkaBase




